import Mathlib

/-!
Shallow embedding of `src/main.py`, a small FastAPI backend with three
kinds of endpoints: static health handlers, a database diagnostic endpoint
(`GET /test`, function `test_database`), and a PowerPoint generator
(`POST /generate_pptx`, function `generate_pptx`).

Python strings are modelled as Lean `String`; Python `None` as
`Option.none`; Python exceptions as `Except`/sum types.  The python-pptx
library calls are modelled by an abstract document structure whose
operations follow the library's documented semantics (in particular,
`TextFrame.clear()` removes all paragraphs except one empty one).
-/

deriving instance DecidableEq for Except

namespace Backend

/-! ### Python string helpers -/

/-- Python truthiness of an optional string: `None` and `""` are falsy. -/
def pyTruthy : Option String → Bool
  | none => false
  | some s => s ≠ ""

/-- Python `a or b` for `a` an optional string: returns `b` when `a` is
`None` or the empty string, else the string in `a`. -/
def pyOrStr (a : Option String) (b : String) : String :=
  match a with
  | none => b
  | some s => if s = "" then b else s

/-- Python `s[:n]` on a string. -/
def pySlice (s : String) (n : Nat) : String := s.take n

/-- One replacement pass of Python `str.replace(old, new)` for a non-empty
pattern `old`: scan left to right, replacing non-overlapping occurrences.
`fuel` bounds the recursion; any `fuel ≥ s.length` gives the full result
since each step consumes at least one character of a non-empty pattern. -/
def pyReplaceAux (old new : List Char) : Nat → List Char → List Char
  | _, [] => []
  | 0, s => s
  | fuel + 1, c :: rest =>
    if old.isPrefixOf (c :: rest) then
      new ++ pyReplaceAux old new fuel ((c :: rest).drop old.length)
    else
      c :: pyReplaceAux old new fuel rest

/-- Python `s.replace(old, new)`.  For an empty pattern Python inserts
`new` before every character and at the end. -/
def pyReplace (s old new : String) : String :=
  match old.data with
  | [] => String.mk (new.data ++ (s.data.map (fun c => c :: new.data)).flatten)
  | _ :: _ => String.mk (pyReplaceAux old.data new.data s.data.length s.data)

/-! ### Data model (`Slide`, `PresentationPayload`) -/

/-- `class Slide(BaseModel)`: `title: str` (required),
`bullets: List[str]` (defaults to the empty list). -/
structure Slide where
  title : String
  bullets : List String
deriving DecidableEq, Repr

/-- `class PresentationPayload(BaseModel)`: `topic: str` with default
`"Yoga: History & Advantages"`, `slides: List[Slide]` (required),
`author: str | None = None`. -/
structure PresentationPayload where
  topic : String
  slides : List Slide
  author : Option String
deriving DecidableEq, Repr

/-- A JSON slide object as submitted, before pydantic validation:
each field may be present or absent. -/
structure RawSlide where
  title : Option String
  bullets : Option (List String)
deriving DecidableEq, Repr

/-- A JSON payload object as submitted, before pydantic validation. -/
structure RawPayload where
  topic : Option String
  slides : Option (List RawSlide)
  author : Option String
deriving DecidableEq, Repr

/-- Pydantic validation of a `Slide` object: `title` is required
(missing field rejects the payload), `bullets` defaults to `[]`. -/
def Slide.validate (r : RawSlide) : Except String Slide :=
  match r.title with
  | none => Except.error "field required: title"
  | some t => Except.ok { title := t, bullets := r.bullets.getD [] }

/-- Validate each slide of a list in order, failing on the first error. -/
def validateSlides : List RawSlide → Except String (List Slide)
  | [] => Except.ok []
  | r :: rs =>
    match Slide.validate r, validateSlides rs with
    | Except.ok s, Except.ok ss => Except.ok (s :: ss)
    | Except.error e, _ => Except.error e
    | _, Except.error e => Except.error e

/-- Pydantic validation of a `PresentationPayload` object: `topic`
defaults to `"Yoga: History & Advantages"`, `slides` is required,
`author` defaults to `None`. -/
def PresentationPayload.validate (r : RawPayload) : Except String PresentationPayload :=
  match r.slides with
  | none => Except.error "field required: slides"
  | some rs =>
    match validateSlides rs with
    | Except.error e => Except.error e
    | Except.ok ss =>
      Except.ok { topic := r.topic.getD "Yoga: History & Advantages"
                , slides := ss
                , author := r.author }

/-! ### python-pptx document model -/

/-- A paragraph of a text frame: its text, its nesting level, and its
font size in EMU (`none` when inherited from the layout). -/
structure Paragraph where
  text : String
  level : Nat
  fontSize : Option Nat
deriving DecidableEq, Repr

/-- `pptx.util.Pt(n)`: `n` points in EMU (1 pt = 12700 EMU). -/
def Pt (n : Nat) : Nat := n * 12700

/-- The single empty paragraph a text frame holds after
`TextFrame.clear()` (python-pptx: "Remove all paragraphs except one
empty one"). -/
def clearedParagraph : Paragraph := { text := "", level := 0, fontSize := none }

/-- `tf.clear()`: the text frame keeps exactly one empty paragraph. -/
def textFrameClear (_tf : List Paragraph) : List Paragraph := [clearedParagraph]

/-- A slide of the generated document: either a slide from the title
layout (`slide_layouts[0]`, title + subtitle placeholders) or a content
slide from the bullet layout (`slide_layouts[1]`, title + body). -/
inductive DocSlide where
  | titleSlide (title : String) (subtitle : String)
  | contentSlide (title : String) (body : List Paragraph)
deriving DecidableEq, Repr

/-- The in-memory presentation: the ordered list of its slides. -/
structure Presentation where
  slides : List DocSlide
deriving DecidableEq, Repr

/-- The paragraph written for bullet `b`:
`p.text = b; p.level = 0; p.font.size = Pt(22)`. -/
def bulletParagraph (b : String) : Paragraph :=
  { text := b, level := 0, fontSize := some (Pt 22) }

/-- One iteration of the bullet loop: the first bullet reuses
`tf.paragraphs[0]`, later bullets `tf.add_paragraph()` (append). -/
def bulletStep (st : List Paragraph × Bool) (b : String) : List Paragraph × Bool :=
  let (ps, first) := st
  if first then (ps.set 0 (bulletParagraph b), false)
  else (ps ++ [bulletParagraph b], false)

/-- The body text frame of a content slide after `tf.clear()` and the
bullet loop of `generate_pptx`. -/
def buildBody (bullets : List String) : List Paragraph :=
  (bullets.foldl bulletStep (textFrameClear [], true)).1

/-- One iteration of the content-slide loop: `add_slide(bullet_layout)`,
set the title, clear the body and run the bullet loop. -/
def addContentSlide (prs : Presentation) (s : Slide) : Presentation :=
  { prs with slides := prs.slides ++ [DocSlide.contentSlide s.title (buildBody s.bullets)] }

/-- The HTTP response of `POST /generate_pptx`: the serialized document,
the media type, the filename computed by the handler, and the
`Content-Disposition` header built from it. -/
structure PptxResponse where
  document : Presentation
  mediaType : String
  filename : String
  contentDisposition : String
deriving DecidableEq, Repr

/-- `generate_pptx(payload)` from `src/main.py`: build the title slide,
append one content slide per payload slide, and return the document as a
streaming response whose filename is the topic with spaces replaced by
underscores plus `".pptx"`. -/
def generate_pptx (payload : PresentationPayload) : PptxResponse :=
  let prs : Presentation := { slides := [] }
  let slide0 : DocSlide :=
    DocSlide.titleSlide payload.topic (pyOrStr payload.author "Auto-generated presentation")
  let prs : Presentation := { prs with slides := prs.slides ++ [slide0] }
  let prs : Presentation := payload.slides.foldl addContentSlide prs
  let filename : String := pyReplace payload.topic " " "_" ++ ".pptx"
  { document := prs
  , mediaType := "application/vnd.openxmlformats-officedocument.presentationml.presentation"
  , filename := filename
  , contentDisposition := "attachment; filename=\"" ++ filename ++ "\"" }

/-- The title/subtitle pair of the first slide, when it is a title slide. -/
def titleSlideInfo (p : Presentation) : Option (String × String) :=
  match p.slides.head? with
  | some (DocSlide.titleSlide t s) => some (t, s)
  | _ => none

/-- The bodies of the content slides of a document, in order. -/
def contentBodies (p : Presentation) : List (List Paragraph) :=
  p.slides.filterMap fun s =>
    match s with
    | DocSlide.contentSlide _ body => some body
    | _ => none

/-! ### `GET /test` (`test_database`) -/

/-- The optional database collaborator's `db` handle: `name` is present
when `hasattr(db, 'name')`, and `list_collection_names()` either returns
the collection names or raises an exception with the given message. -/
structure DbHandle where
  name : Option String
  list_collection_names : Except String (List String)
deriving DecidableEq, Repr

/-- The outcome of `from database import db`: the import raises
`ImportError`, raises some other exception, or succeeds yielding a `db`
that may be `None`. -/
inductive DbImport where
  | importError
  | otherError (msg : String)
  | ok (db : Option DbHandle)
deriving DecidableEq, Repr

/-- The JSON object returned by `GET /test`.  `database_url` and
`database_name` start out as `None` (Python `null`) and are strings by
the time the handler returns. -/
structure TestResponse where
  backend : String
  database : String
  database_url : Option String
  database_name : Option String
  connection_status : String
  collections : List String
deriving DecidableEq, Repr

/-- `test_database()` from `src/main.py`.  Its environment is the result
of the lazy `from database import db` and the values of the
`DATABASE_URL` and `DATABASE_NAME` environment variables (`none` =
unset).  Every failure is caught and folded into the `database` string;
the function is total, modelling that the handler always returns. -/
def test_database (imp : DbImport) (databaseUrlEnv databaseNameEnv : Option String) :
    TestResponse :=
  let response : TestResponse :=
    { backend := "✅ Running"
    , database := "❌ Not Available"
    , database_url := none
    , database_name := none
    , connection_status := "Not Connected"
    , collections := [] }
  let response : TestResponse :=
    match imp with
    | DbImport.ok (some db) =>
      let response :=
        { response with
          database := "✅ Available"
          database_url := some "✅ Configured"
          database_name := some (match db.name with
            | some n => n
            | none => "✅ Connected")
          connection_status := "Connected" }
      match db.list_collection_names with
      | Except.ok collections =>
        { response with
          collections := collections.take 10
          database := "✅ Connected & Working" }
      | Except.error e =>
        { response with database := "⚠️  Connected but Error: " ++ pySlice e 50 }
    | DbImport.ok none =>
      { response with database := "⚠️  Available but not initialized" }
    | DbImport.importError =>
      { response with database := "❌ Database module not found (run enable-database first)" }
    | DbImport.otherError e =>
      { response with database := "❌ Error: " ++ pySlice e 50 }
  { response with
    database_url := some (if pyTruthy databaseUrlEnv then "✅ Set" else "❌ Not Set")
    database_name := some (if pyTruthy databaseNameEnv then "✅ Set" else "❌ Not Set") }

/-! ### Spec-side definitions (for refinement comparison) -/

/-- Spec-side filename: "topic with every space character replaced by an
underscore, followed by the suffix `.pptx`", written directly from the
spec's words as a per-character substitution. -/
def specTopicFilename (topic : String) : String :=
  String.mk (topic.data.map fun c => if c = ' ' then '_' else c) ++ ".pptx"

/-! ### Supporting lemmas -/

theorem foldl_addContentSlide (ss : List Slide) (prs : Presentation) :
    (ss.foldl addContentSlide prs).slides =
      prs.slides ++ ss.map (fun s => DocSlide.contentSlide s.title (buildBody s.bullets)) := by
  induction ss generalizing prs with
  | nil => simp
  | cons s ss ih => simp [addContentSlide, ih]

/-- The slide list built by `generate_pptx`: the title slide followed by
one content slide per payload slide, in order. -/
theorem generate_pptx_slides (payload : PresentationPayload) :
    (generate_pptx payload).document.slides =
      DocSlide.titleSlide payload.topic (pyOrStr payload.author "Auto-generated presentation")
        :: payload.slides.map (fun s => DocSlide.contentSlide s.title (buildBody s.bullets)) := by
  simp [generate_pptx, foldl_addContentSlide]

theorem foldl_bulletStep_false (bs : List String) (ps : List Paragraph) :
    (bs.foldl bulletStep (ps, false)).1 = ps ++ bs.map bulletParagraph := by
  induction bs generalizing ps with
  | nil => simp
  | cons b bs ih => simp [bulletStep, ih]

theorem buildBody_nil : buildBody [] = [clearedParagraph] := rfl

theorem buildBody_cons (b : String) (bs : List String) :
    buildBody (b :: bs) = bulletParagraph b :: bs.map bulletParagraph := by
  simp [buildBody, textFrameClear, bulletStep, foldl_bulletStep_false]

theorem contentBodies_generate (payload : PresentationPayload) :
    contentBodies (generate_pptx payload).document =
      payload.slides.map (fun s => buildBody s.bullets) := by
  rw [contentBodies, generate_pptx_slides]
  rw [List.filterMap_cons]
  simp only [List.filterMap_map]
  have hcomp :
      ((fun s : DocSlide =>
          match s with
          | DocSlide.contentSlide _ body => some body
          | _ => none) ∘ fun s : Slide => DocSlide.contentSlide s.title (buildBody s.bullets)) =
        some ∘ (fun s : Slide => buildBody s.bullets) := rfl
  rw [hcomp, List.filterMap_eq_map]

theorem pyReplaceAux_space (fuel : Nat) (s : List Char) (h : s.length ≤ fuel) :
    pyReplaceAux [' '] ['_'] fuel s = s.map (fun c => if c = ' ' then '_' else c) := by
  induction fuel generalizing s with
  | zero =>
    cases s with
    | nil => rfl
    | cons c rest => simp at h
  | succ n ih =>
    cases s with
    | nil => rfl
    | cons c rest =>
      by_cases hc : c = ' '
      · subst hc
        simp only [pyReplaceAux, List.isPrefixOf, List.map_cons]
        simp [ih rest (by simpa using Nat.le_of_succ_le_succ h)]
      · have hb : (' ' == c) = false := by simp [Ne.symm hc]
        simp [pyReplaceAux, List.isPrefixOf, hb, hc,
          ih rest (by simpa using Nat.le_of_succ_le_succ h)]

/-- The filename the handler computes equals the spec-side filename. -/
theorem filename_eq_spec (payload : PresentationPayload) :
    (generate_pptx payload).filename = specTopicFilename payload.topic := by
  show pyReplace payload.topic " " "_" ++ ".pptx" = specTopicFilename payload.topic
  rw [specTopicFilename, pyReplace]
  rw [pyReplaceAux_space payload.topic.data.length payload.topic.data (Nat.le_refl _)]

/-! ### Claims -/

/-- C1: For every valid `PresentationRequest` payload, the document
produced by `generate_pptx` contains exactly `len(slides) + 1` slides:
one title slide followed by one content slide per entry of the payload's
`slides` list, in list order. -/
theorem C1_slide_count (payload : PresentationPayload) :
    (generate_pptx payload).document.slides.length = payload.slides.length + 1 ∧
    (generate_pptx payload).document.slides =
      DocSlide.titleSlide payload.topic (pyOrStr payload.author "Auto-generated presentation")
        :: payload.slides.map (fun s => DocSlide.contentSlide s.title (buildBody s.bullets)) := by
  refine ⟨?_, generate_pptx_slides payload⟩
  rw [generate_pptx_slides]
  simp [Nat.add_comm]

/-- C2 counterexample: a payload whose single slide has an empty bullet
list.  The claim predicts a body with 0 paragraphs, but `tf.clear()`
leaves one empty paragraph, so the generated body has 1 paragraph. -/
theorem C2_counterexample :
    (contentBodies (generate_pptx
        { topic := "T", slides := [{ title := "S", bullets := [] }], author := none }
      ).document).map List.length = [1] ∧
    (([{ title := "S", bullets := [] }] : List Slide)).map (fun s => s.bullets.length)
      = [0] := by
  constructor <;> rfl

/-- C2 amended: content slide `N`'s body contains `max 1 len(bullets[N])`
paragraphs: when `bullets[N]` is non-empty, exactly the submitted bullet
strings in order; when it is empty, the single empty paragraph left by
`tf.clear()`. -/
theorem C2_body_paragraphs (payload : PresentationPayload) (i : Nat)
    (h : i < payload.slides.length) :
    ∃ body, (contentBodies (generate_pptx payload).document)[i]? = some body ∧
      body.length = max 1 payload.slides[i].bullets.length ∧
      (payload.slides[i].bullets ≠ [] →
        body.map Paragraph.text = payload.slides[i].bullets) ∧
      (payload.slides[i].bullets = [] → body = [clearedParagraph]) := by
  refine ⟨buildBody payload.slides[i].bullets, ?_, ?_, ?_, ?_⟩
  · rw [contentBodies_generate]
    rw [List.getElem?_map]
    rw [List.getElem?_eq_getElem h]
    rfl
  · cases hb : payload.slides[i].bullets with
    | nil => simp [buildBody_nil]
    | cons b bs => simp [buildBody_cons]
  · intro hne
    cases hb : payload.slides[i].bullets with
    | nil => exact absurd hb hne
    | cons b bs => simp [buildBody_cons, bulletParagraph, Function.comp_def]
  · intro hnil
    rw [hnil, buildBody_nil]

/-- Witness for C2: the example payload with two bullets yields body
texts `["A", "B"]`, and with no bullets a single cleared paragraph. -/
theorem C2_body_paragraphs_witness :
    ∃ body,
      (contentBodies (generate_pptx
          { topic := "T", slides := [{ title := "S", bullets := ["A", "B"] }], author := none }
        ).document)[0]? = some body ∧
      body.map Paragraph.text = ["A", "B"] := by
  obtain ⟨body, h1, _, h3, _⟩ :=
    C2_body_paragraphs
      { topic := "T", slides := [{ title := "S", bullets := ["A", "B"] }], author := none }
      0 (by decide)
  exact ⟨body, h1, h3 (by decide)⟩

/-- C3: the `Content-Disposition` header of the `generate_pptx` response
carries a filename equal to the topic with every space replaced by an
underscore, followed by `".pptx"` (spec-side `specTopicFilename`). -/
theorem C3_filename (payload : PresentationPayload) :
    (generate_pptx payload).filename = specTopicFilename payload.topic ∧
    (generate_pptx payload).contentDisposition =
      "attachment; filename=\"" ++ specTopicFilename payload.topic ++ "\"" := by
  refine ⟨filename_eq_spec payload, ?_⟩
  show "attachment; filename=\"" ++ (generate_pptx payload).filename ++ "\"" = _
  rw [filename_eq_spec]

/-- C4 counterexample: the author field present but equal to `""`.  The
claim says the subtitle then equals the author (`""`), but Python's
`or` treats the empty string as falsy, so the code writes the default
placeholder instead. -/
theorem C4_counterexample :
    ({ topic := "T", slides := [], author := some "" } : PresentationPayload).author
        = some "" ∧
    titleSlideInfo (generate_pptx
        { topic := "T", slides := [], author := some "" }).document
      = some ("T", "Auto-generated presentation") ∧
    ("Auto-generated presentation" : String) ≠ "" := by
  refine ⟨rfl, rfl, by decide⟩

/-- C4 amended: the title slide's title equals the topic; its subtitle
equals the author whenever the author is present and non-empty, and the
default placeholder `"Auto-generated presentation"` when the author is
absent or the empty string. -/
theorem C4_title_slide (payload : PresentationPayload) :
    titleSlideInfo (generate_pptx payload).document =
      some (payload.topic,
        match payload.author with
        | none => "Auto-generated presentation"
        | some a => if a = "" then "Auto-generated presentation" else a) := by
  rw [titleSlideInfo, generate_pptx_slides]
  cases payload.author with
  | none => rfl
  | some a => rfl

/-- C5: when the database handle is initialized, a successful listing
reports `"✅ Connected & Working"` with at most the first 10 collection
names, and a failing listing reports the exception's message truncated
to 50 characters; either way the handler returns a response. -/
theorem C5_initialized (db : DbHandle) (url name : Option String) :
    (∀ cols, db.list_collection_names = Except.ok cols →
      (test_database (DbImport.ok (some db)) url name).database = "✅ Connected & Working" ∧
      (test_database (DbImport.ok (some db)) url name).collections = cols.take 10 ∧
      (test_database (DbImport.ok (some db)) url name).collections.length ≤ 10) ∧
    (∀ e, db.list_collection_names = Except.error e →
      (test_database (DbImport.ok (some db)) url name).database =
        "⚠️  Connected but Error: " ++ e.take 50) := by
  constructor
  · intro cols hcols
    simp [test_database, hcols, List.length_take]
  · intro e he
    simp [test_database, he, pySlice]

set_option maxRecDepth 8192 in
/-- Witness for C5: concrete handles exercising both the successful and
the failing listing branch. -/
theorem C5_initialized_witness :
    (test_database (DbImport.ok (some
        { name := some "mydb"
        , list_collection_names :=
            Except.ok ["c01","c02","c03","c04","c05","c06","c07","c08","c09","c10","c11","c12"] }))
      none none).collections =
        ["c01","c02","c03","c04","c05","c06","c07","c08","c09","c10"] ∧
    (test_database (DbImport.ok (some
        { name := none, list_collection_names := Except.error "boom" }))
      none none).database = "⚠️  Connected but Error: boom" := by
  constructor
  · have h :=
      ((C5_initialized
          { name := some "mydb"
          , list_collection_names :=
              Except.ok ["c01","c02","c03","c04","c05","c06","c07","c08","c09","c10","c11","c12"] }
          none none).1
        ["c01","c02","c03","c04","c05","c06","c07","c08","c09","c10","c11","c12"] rfl).2.1
    rw [h]
    rfl
  · have h :=
      (C5_initialized
          { name := none, list_collection_names := Except.error "boom" }
          none none).2 "boom" rfl
    rw [h]
    decide

/-- C6: when the database module cannot be imported, the handler returns
a response whose `database` field is the module-not-found message,
beginning with `"❌ Database module not found"`. -/
theorem C6_module_not_found (url name : Option String) :
    (test_database DbImport.importError url name).database =
      "❌ Database module not found (run enable-database first)" ∧
    ("❌ Database module not found".data).isPrefixOf
      ((test_database DbImport.importError url name).database).data = true := by
  refine ⟨rfl, ?_⟩
  have hd : (test_database DbImport.importError url name).database =
      "❌ Database module not found (run enable-database first)" := rfl
  rw [hd]
  decide

/-- C7: the `GET /test` response depends on the `DATABASE_URL` and
`DATABASE_NAME` environment variables only through their presence: two
runs that differ only in the (set, non-empty) values of these variables
produce identical responses, so no variable's value ever reaches the
response. -/
theorem C7_env_value_independence (imp : DbImport) (u₁ u₂ n₁ n₂ : String)
    (hu₁ : u₁ ≠ "") (hu₂ : u₂ ≠ "") (hn₁ : n₁ ≠ "") (hn₂ : n₂ ≠ "") :
    test_database imp (some u₁) (some n₁) = test_database imp (some u₂) (some n₂) := by
  have t : ∀ s : String, s ≠ "" → pyTruthy (some s) = true := by
    intro s hs
    simp [pyTruthy, hs]
  simp only [test_database, t u₁ hu₁, t u₂ hu₂, t n₁ hn₁, t n₂ hn₂]

/-- Witness for C7: two runs with different non-empty variable values
give the same response. -/
theorem C7_env_value_independence_witness :
    test_database DbImport.importError (some "postgres://host-a/x") (some "db-one") =
      test_database DbImport.importError (some "postgres://host-b/y") (some "db-two") :=
  C7_env_value_independence DbImport.importError
    "postgres://host-a/x" "postgres://host-b/y" "db-one" "db-two"
    (by decide) (by decide) (by decide) (by decide)

/-- C8: when `DATABASE_URL` is unset, the response's `database_url`
field equals `"❌ Not Set"`, whatever the import outcome and the other
variable. -/
theorem C8_url_unset (imp : DbImport) (name : Option String) :
    (test_database imp none name).database_url = some "❌ Not Set" := rfl

/-- C9: in a slide object, `bullets` is optional and defaults to the
empty list, while `title` is required: omitting it fails validation. -/
theorem C9_slide_validation (t : String) (bs : Option (List String)) :
    Slide.validate { title := some t, bullets := none }
        = Except.ok { title := t, bullets := [] } ∧
    ∃ e, Slide.validate { title := none, bullets := bs } = Except.error e := by
  exact ⟨rfl, "field required: title", rfl⟩

/-- C10: `topic` is optional and defaults to `"Yoga: History &
Advantages"`; a payload that omits it gets the download filename
`"Yoga:_History_&_Advantages.pptx"`. -/
theorem C10_default_topic (rs : List RawSlide) (a : Option String)
    (p : PresentationPayload)
    (h : PresentationPayload.validate { topic := none, slides := some rs, author := a }
        = Except.ok p) :
    p.topic = "Yoga: History & Advantages" ∧
    (generate_pptx p).filename = "Yoga:_History_&_Advantages.pptx" := by
  have htopic : p.topic = "Yoga: History & Advantages" := by
    cases hv : validateSlides rs with
    | error e => rw [PresentationPayload.validate] at h; simp [hv] at h
    | ok ss =>
      rw [PresentationPayload.validate] at h
      simp only [hv] at h
      cases h
      rfl
  refine ⟨htopic, ?_⟩
  rw [filename_eq_spec, htopic]
  rfl

/-- Witness for C10: the empty raw payload with no topic validates to
the default payload, whose filename is the default one. -/
theorem C10_default_topic_witness :
    ({ topic := "Yoga: History & Advantages", slides := [], author := none }
        : PresentationPayload).topic = "Yoga: History & Advantages" ∧
    (generate_pptx
        { topic := "Yoga: History & Advantages", slides := [], author := none }).filename
      = "Yoga:_History_&_Advantages.pptx" :=
  C10_default_topic [] none
    { topic := "Yoga: History & Advantages", slides := [], author := none } rfl

end Backend
